import Mathlib

/-!
Shallow embedding of `src/identity.py` (the `Schema` class over SQLAlchemy and
the four declarative tables `users`, `events`, `api_tokens`, `auth_tokens`).

Modelling choices, each traceable to the source:

* A `Schema` value carries the committed database `db`, the current
  transaction view `txn` (bulk `Query.delete()` calls act on it directly;
  `commit` promotes it to `db`; rollback resets it to `db`), and `pending`,
  the list of objects passed to `session.add` that have not been flushed yet.
* SQLAlchemy's autoflush: every query (`filter_by` iteration, bulk delete)
  first flushes `pending` into `txn`; `Session.commit` flushes and then makes
  the transaction durable.
* A flush inserts rows in `session.add` order, failing with `IntegrityError`
  on a primary-key violation and with `DataError` on over-length strings
  (the session runs with `sql_mode='TRADITIONAL'`, so truncation is an
  error).  `Schema.commit` in the source catches `StatementError`, rolls the
  session back, reconnects and re-raises: after any failed flush the pending
  objects are gone and `txn` is back to the committed state.
* `secrets.token_urlsafe(nbytes=48)` and `datetime.utcnow` are modelled as
  oracle streams in a `World` (`tokens : Nat → String`,
  `clock : Nat → Nat`); the schema state carries the next index into each.
  Column defaults (`created`) are sampled when the mapped object is
  constructed.
* Python exceptions become an `Option Err` result paired with the state the
  object is left in: `AttributeError` in `create_user` is `DuplicateIdentity`,
  `KeyError` in the getters is `NotFound`, `RuntimeError` in `create_token`
  is `TokenExhausted`; `warnings.warn` appends to a warning log.
-/

namespace IdentityDB

/-- Row of the `users` table (`class User`): primary key `discord_id`
(length ≤ 32), `created` timestamp. -/
structure User where
  discord_id : String
  created : Nat
deriving DecidableEq, Repr

/-- Row of the `events` table (`class Event`): composite primary key
`(discord_id, action, created)`; lengths ≤ 32 and ≤ 64. -/
structure Event where
  discord_id : String
  action : String
  created : Nat
deriving DecidableEq, Repr

/-- Row of the `api_tokens` table (`class ApiToken`): primary key
`(discord_id, token)`; lengths ≤ 32 and ≤ 64. -/
structure ApiToken where
  discord_id : String
  token : String
  created : Nat
deriving DecidableEq, Repr

/-- Row of the `auth_tokens` table (`class AuthToken`): primary key
`(discord_id, provider, token)`; lengths ≤ 32, ≤ 64 and ≤ 1024. -/
structure AuthToken where
  discord_id : String
  provider : String
  token : String
  created : Nat
deriving DecidableEq, Repr

/-- The four tables, in insertion order (no ORDER BY is ever issued, so
`results[0]` is the first row in this order). -/
structure DB where
  users : List User
  events : List Event
  api_tokens : List ApiToken
  auth_tokens : List AuthToken
deriving DecidableEq, Repr

def DB.empty : DB := ⟨[], [], [], []⟩

/-- An object handed to `session.add`, not yet flushed. -/
inductive PRow where
  | user (r : User)
  | event (r : Event)
  | api (r : ApiToken)
  | auth (r : AuthToken)
deriving DecidableEq, Repr

/-- Errors surfaced by the module: `IntegrityError` (duplicate key),
`DataError` (strict-mode truncation), `DuplicateIdentity`
(`AttributeError` in `create_user`), `NotFound` (`KeyError` in the getters),
`TokenExhausted` (`RuntimeError` in `create_token`). -/
inductive Err where
  | IntegrityError
  | DataError
  | DuplicateIdentity (discord_id : String)
  | NotFound
  | TokenExhausted
deriving DecidableEq, Repr

/-- The environment: `clock n` is the value `datetime.utcnow()` would yield at
the `n`-th sampling (seconds resolution, so repeats are possible), and
`tokens n` is the `n`-th string produced by `secrets.token_urlsafe(48)`. -/
structure World where
  clock : Nat → Nat
  tokens : Nat → String

/-- The `Schema` object: committed store, transaction view, pending adds,
oracle cursors, and the warning log. -/
structure Schema where
  db : DB
  txn : DB
  pending : List PRow
  tick : Nat
  tkIdx : Nat
  warnings : List String
deriving Repr

def Schema.init (d : DB) : Schema := ⟨d, d, [], 0, 0, []⟩

/-- `sql_mode='TRADITIONAL'`: inserting an over-length string is an error. -/
def rowFits : PRow → Bool
  | .user r => r.discord_id.length ≤ 32
  | .event r => r.discord_id.length ≤ 32 && r.action.length ≤ 64
  | .api r => r.discord_id.length ≤ 32 && r.token.length ≤ 64
  | .auth r => r.discord_id.length ≤ 32 && r.provider.length ≤ 64 && r.token.length ≤ 1024

/-- Primary-key violation check against the current transaction view. -/
def rowDup (d : DB) : PRow → Bool
  | .user r => d.users.any (fun x => x.discord_id == r.discord_id)
  | .event r => d.events.any (fun x =>
      x.discord_id == r.discord_id && x.action == r.action && x.created == r.created)
  | .api r => d.api_tokens.any (fun x =>
      x.discord_id == r.discord_id && x.token == r.token)
  | .auth r => d.auth_tokens.any (fun x =>
      x.discord_id == r.discord_id && x.provider == r.provider && x.token == r.token)

def addRow (d : DB) : PRow → DB
  | .user r => {d with users := d.users ++ [r]}
  | .event r => {d with events := d.events ++ [r]}
  | .api r => {d with api_tokens := d.api_tokens ++ [r]}
  | .auth r => {d with auth_tokens := d.auth_tokens ++ [r]}

def insertRow (d : DB) (r : PRow) : Except Err DB :=
  if ¬ rowFits r then .error .DataError
  else if rowDup d r then .error .IntegrityError
  else .ok (addRow d r)

/-- Flush the pending adds, in order, into the transaction view. -/
def flushDB (d : DB) : List PRow → Except Err DB
  | [] => .ok d
  | r :: rs =>
    match insertRow d r with
    | .ok d2 => flushDB d2 rs
    | .error e => .error e

/-- Result of a void operation: the error raised (if any) and the state the
`Schema` object is left in. -/
abbrev Step := Option Err × Schema

def andThen (r : Step) (f : Schema → Step) : Step :=
  match r with
  | (some e, s) => (some e, s)
  | (none, s) => f s

/-- `Schema.commit`: flush and commit; on `StatementError` the source rolls
back, reconnects (dropping every pending object) and re-raises. -/
def Schema.commit (s : Schema) : Step :=
  match flushDB s.txn s.pending with
  | .ok t => (none, {s with db := t, txn := t, pending := []})
  | .error e => (some e, {s with txn := s.db, pending := []})

/-- Autoflush performed by every query: flush without committing.  A flush
failure raises and leaves the session rolled back and reconnected (the
source's failure handler). -/
def Schema.autoflush (s : Schema) : Step :=
  match flushDB s.txn s.pending with
  | .ok t => (none, {s with txn := t, pending := []})
  | .error e => (some e, {s with txn := s.db, pending := []})

/-- `datetime.utcnow()` at object construction. -/
def Schema.now (w : World) (s : Schema) : Nat × Schema :=
  (w.clock s.tick, {s with tick := s.tick + 1})

/-- `Schema.register_event`: add the `Event`, and when `commit` holds commit,
swallowing `IntegrityError` with the warning
"Attempting to commit events too quickly!". -/
def register_event (w : World) (discord_id action : String) (commit : Bool)
    (s : Schema) : Step :=
  let ts := s.now w
  let s2 := {ts.2 with pending := ts.2.pending ++ [PRow.event ⟨discord_id, action, ts.1⟩]}
  if commit then
    match s2.commit with
    | (some .IntegrityError, s3) =>
      (none, {s3 with warnings := s3.warnings ++ ["Attempting to commit events too quickly!"]})
    | r => r
  else
    (none, s2)

/-- The `for _ in range(1, 100)` loop of `Schema.create_token`: draw a
candidate, query `api_tokens` for it (autoflushing), retry on collision. -/
def findToken (w : World) : Nat → Schema → Option Err × Option String × Schema
  | 0, s => (none, none, s)
  | fuel + 1, s =>
    let tok := w.tokens s.tkIdx
    let s1 := {s with tkIdx := s.tkIdx + 1}
    match s1.autoflush with
    | (some e, s2) => (some e, none, s2)
    | (none, s2) =>
      if (s2.txn.api_tokens.filter (fun r => r.token == tok)).isEmpty then
        (none, some tok, s2)
      else
        findToken w fuel s2

/-- `Schema.create_token`: find a fresh token (else `RuntimeError`), add the
`ApiToken`, record `TOKEN_CREATE`, optionally commit. -/
def create_token (w : World) (discord_id : String) (commit : Bool)
    (s : Schema) : Step :=
  match findToken w 99 s with
  | (some e, _, s1) => (some e, s1)
  | (none, none, s1) => (some .TokenExhausted, s1)
  | (none, some tok, s1) =>
    let ts := s1.now w
    let s2 := {ts.2 with pending := ts.2.pending ++ [PRow.api ⟨discord_id, tok, ts.1⟩]}
    andThen (register_event w discord_id "TOKEN_CREATE" commit s2) fun s3 =>
      if commit then s3.commit else (none, s3)

/-- `Schema.revoke_token`: bulk-delete the account's `ApiToken` rows, record
`TOKEN_REVOKE`, optionally commit. -/
def revoke_token (w : World) (discord_id : String) (commit : Bool)
    (s : Schema) : Step :=
  andThen s.autoflush fun s1 =>
    let s2 := {s1 with txn :=
      {s1.txn with api_tokens := s1.txn.api_tokens.filter (fun r => !(r.discord_id == discord_id))}}
    andThen (register_event w discord_id "TOKEN_REVOKE" commit s2) fun s3 =>
      if commit then s3.commit else (none, s3)

/-- `Schema.regenerate_token`: revoke then create, both deferred; commit at
the end when asked. -/
def regenerate_token (w : World) (discord_id : String) (commit : Bool)
    (s : Schema) : Step :=
  andThen (revoke_token w discord_id false s) fun s1 =>
  andThen (create_token w discord_id false s1) fun s2 =>
    if commit then s2.commit else (none, s2)

/-- `Schema.create_user`: add the `User`, record `USER_CREATE` (with the same
`commit` flag), optionally generate the initial token, and on final commit
turn `IntegrityError` into the "User ID already exists" `AttributeError`. -/
def create_user (w : World) (discord_id : String) (generate_token commit : Bool)
    (s : Schema) : Step :=
  let ts := s.now w
  let s2 := {ts.2 with pending := ts.2.pending ++ [PRow.user ⟨discord_id, ts.1⟩]}
  andThen (register_event w discord_id "USER_CREATE" commit s2) fun s3 =>
  andThen (if generate_token then regenerate_token w discord_id false s3 else (none, s3)) fun s4 =>
    if commit then
      match s4.commit with
      | (some .IntegrityError, s5) => (some (.DuplicateIdentity discord_id), s5)
      | r => r
    else
      (none, s4)

/-- `Schema.ensure_user`: query `users` for the ID; create only when the
result list is empty. -/
def ensure_user (w : World) (discord_id : String) (generate_token commit : Bool)
    (s : Schema) : Step :=
  andThen s.autoflush fun s1 =>
    if (s1.txn.users.filter (fun r => r.discord_id == discord_id)).isEmpty then
      create_user w discord_id generate_token commit s1
    else
      (none, s1)

/-- `Schema.delete_user`: bulk-delete the `User` row, record `USER_DELETE`,
optionally commit. -/
def delete_user (w : World) (discord_id : String) (commit : Bool)
    (s : Schema) : Step :=
  andThen s.autoflush fun s1 =>
    let s2 := {s1 with txn :=
      {s1.txn with users := s1.txn.users.filter (fun r => !(r.discord_id == discord_id))}}
    andThen (register_event w discord_id "USER_DELETE" commit s2) fun s3 =>
      if commit then s3.commit else (none, s3)

/-- `Schema.get_api_user`: first `api_tokens` row with this token value, else
`KeyError`. -/
def get_api_user (tok : String) (s : Schema) : Option Err × Option String × Schema :=
  match s.autoflush with
  | (some e, s1) => (some e, none, s1)
  | (none, s1) =>
    match s1.txn.api_tokens.filter (fun r => r.token == tok) with
    | [] => (some .NotFound, none, s1)
    | r :: _ => (none, some r.discord_id, s1)

/-- `Schema.get_api_token`: first `api_tokens` row for this account, else
`KeyError`. -/
def get_api_token (discord_id : String) (s : Schema) : Option Err × Option String × Schema :=
  match s.autoflush with
  | (some e, s1) => (some e, none, s1)
  | (none, s1) =>
    match s1.txn.api_tokens.filter (fun r => r.discord_id == discord_id) with
    | [] => (some .NotFound, none, s1)
    | r :: _ => (none, some r.token, s1)

/-- `Schema.set_auth_discord`: bulk-delete the account's `auth_tokens` rows
(the source filters by `discord_id` only, not by provider), add the new
`DISCORD` row, record `AUTHENTICATE_DISCORD` with `commit=False`, optionally
commit. -/
def set_auth_discord (w : World) (discord_id dtok : String) (commit : Bool)
    (s : Schema) : Step :=
  andThen s.autoflush fun s1 =>
    let s2 := {s1 with txn :=
      {s1.txn with auth_tokens := s1.txn.auth_tokens.filter (fun r => !(r.discord_id == discord_id))}}
    let ts := s2.now w
    let s3 := {ts.2 with pending := ts.2.pending ++ [PRow.auth ⟨discord_id, "DISCORD", dtok, ts.1⟩]}
    andThen (register_event w discord_id "AUTHENTICATE_DISCORD" false s3) fun s4 =>
      if commit then s4.commit else (none, s4)

/-- Final database produced by a successful `regenerate_token(i, commit=True)`
from a quiescent state (established by `regenerate_token_run`). -/
def regenDB (w : World) (i : String) (s : Schema) : DB :=
  { users := s.db.users,
    events := s.db.events ++ [⟨i, "TOKEN_REVOKE", w.clock s.tick⟩,
      ⟨i, "TOKEN_CREATE", w.clock (s.tick + 2)⟩],
    api_tokens := s.db.api_tokens.filter (fun r => !(r.discord_id == i))
      ++ [⟨i, w.tokens s.tkIdx, w.clock (s.tick + 1)⟩],
    auth_tokens := s.db.auth_tokens }

/-- Final database produced by a successful
`create_user(i, generate_token=True, commit=True)` on a fresh account from a
quiescent state (established by `create_user_true_run`). -/
def createUserDB (w : World) (i : String) (s : Schema) : DB :=
  { users := s.db.users ++ [⟨i, w.clock s.tick⟩],
    events := s.db.events ++ [⟨i, "USER_CREATE", w.clock (s.tick + 1)⟩,
      ⟨i, "TOKEN_REVOKE", w.clock (s.tick + 2)⟩,
      ⟨i, "TOKEN_CREATE", w.clock (s.tick + 4)⟩],
    api_tokens := s.db.api_tokens.filter (fun r => !(r.discord_id == i))
      ++ [⟨i, w.tokens s.tkIdx, w.clock (s.tick + 3)⟩],
    auth_tokens := s.db.auth_tokens }

/-- Final database produced by a successful `set_auth_discord(i, v, commit=True)`
from a quiescent state (established by `set_auth_discord_run`). -/
def setAuthDB (w : World) (i v : String) (s : Schema) : DB :=
  { users := s.db.users,
    events := s.db.events ++ [⟨i, "AUTHENTICATE_DISCORD", w.clock (s.tick + 1)⟩],
    api_tokens := s.db.api_tokens,
    auth_tokens := s.db.auth_tokens.filter (fun r => !(r.discord_id == i))
      ++ [⟨i, "DISCORD", v, w.clock s.tick⟩] }

/-- `ensure_user(i)` with the default flags, called `N` times in a row. -/
def ensure_user_iter (w : World) (i : String) : Nat → Schema → Schema
  | 0, s => s
  | n + 1, s => ensure_user_iter w i n (ensure_user w i true true s).2

/-- Number of `TOKEN_CREATE` audit events recorded for an account. -/
def tokenCreateCount (i : String) (d : DB) : Nat :=
  (d.events.filter (fun e => e.discord_id == i && e.action == "TOKEN_CREATE")).length

/-- Concrete environment used for witnesses: the clock reads `n` at the `n`-th
sampling (strictly increasing, as `utcnow` between operations), and the `n`-th
generated token is the string of `min (n+1) 64` letters `a` (non-empty,
within the 64-character column limit, pairwise distinct for the indices a
witness run uses). -/
def wT : World := ⟨fun n => n, fun n => String.mk (List.replicate (min (n + 1) 64) 'a')⟩

/-- State of a fresh store after `create_user("42", generate_token=True)`:
one user row, token "a", three audit events. -/
def sAfterCreate : Schema := (create_user wT "42" true true (Schema.init DB.empty)).2

/-- Store holding one user "5" (and one old audit event) with no API tokens. -/
def s6W : Schema := Schema.init ⟨[⟨"5", 0⟩], [⟨"5", "USER_CREATE", 0⟩], [], []⟩

/-- Store whose events table already holds ("7", "PING", 0). -/
def s7W : Schema := Schema.init ⟨[], [⟨"7", "PING", 0⟩], [], []⟩

/-- Store holding one user "1" whose only auth token belongs to a provider
other than DISCORD. -/
def sAuthPre : Schema := Schema.init ⟨[⟨"1", 0⟩], [], [], [⟨"1", "OTHER", "x", 0⟩]⟩

/-- Store reached by `create_user("9")` (with token), `delete_user("9")`:
the user row is gone but its ApiToken row "a" is orphaned (no cascade). -/
def sOrphan : Schema :=
  (delete_user wT "9" true (create_user wT "9" true true (Schema.init DB.empty)).2).2

/-- World whose token stream is the constant string "t": every generation
attempt collides with an existing "t" row. -/
def wColl : World := ⟨fun n => n, fun _ => "t"⟩

lemma autoflush_of_nil_pending {s : Schema} (h : s.pending = []) :
    s.autoflush = (none, s) := by
  cases s with
  | mk db txn pending tick tkIdx warnings =>
    simp only at h
    subst h
    simp [Schema.autoflush, flushDB]

lemma filter_nil_forall {α} {l : List α} {p : α → Bool} (h : l.filter p = []) :
    ∀ a ∈ l, p a = false := by
  intro a ha
  by_contra hcon
  have hmem : a ∈ l.filter p := by
    rw [List.mem_filter]
    exact ⟨ha, by revert hcon; cases p a <;> simp⟩
  rw [h] at hmem
  exact absurd hmem (List.not_mem_nil a)

lemma filter_neg_eq_self {α} {l : List α} {p : α → Bool} (h : l.filter p = []) :
    l.filter (fun x => !(p x)) = l := by
  rw [List.filter_eq_self]
  intro a ha
  rw [filter_nil_forall h a ha]
  rfl

lemma filter_sub_nil {α} (l : List α) (p q : α → Bool) (h : l.filter p = []) :
    (l.filter q).filter p = [] := by
  rw [List.filter_eq_nil_iff]
  intro a ha
  have hf := filter_nil_forall h a (List.mem_of_mem_filter ha)
  simp [hf]

lemma filter_neg_filter_nil {α} (l : List α) (p : α → Bool) :
    (l.filter (fun x => !(p x))).filter p = [] := by
  rw [List.filter_eq_nil_iff]
  intro a ha
  have h1 := List.of_mem_filter ha
  simp at h1
  simp [h1]

lemma events_dup_false (l : List Event) (i a : String) (c : Nat)
    (h : ∀ e ∈ l, c ≠ e.created) :
    (l.any fun x => x.discord_id == i && x.action == a && x.created == c) = false := by
  simp
  intro x hx h1 h2
  exact fun hc => (h x hx) hc.symm

lemma api_dup_false (l : List ApiToken) (i tok : String)
    (h : l.filter (fun r => r.token == tok) = []) :
    (l.any fun x => x.discord_id == i && x.token == tok) = false := by
  have h' := filter_nil_forall h
  simp at h'
  simp
  intro x hx h1
  exact h' x hx

lemma user_dup_false (l : List User) (i : String)
    (h : l.filter (fun r => r.discord_id == i) = []) :
    (l.any fun x => x.discord_id == i) = false := by
  have h' := filter_nil_forall h
  simp at h'
  simpa using h'

lemma auth_dup_false (l : List AuthToken) (i p tok : String)
    (h : ∀ r ∈ l, (r.discord_id == i) = false) :
    (l.any fun x => x.discord_id == i && x.provider == p && x.token == tok) = false := by
  simp at h
  simp
  intro x hx h1
  exact absurd h1 (h x hx)

lemma findToken_found (w : World) (s : Schema) (fuel : Nat) (T : DB)
    (hfl : flushDB s.txn s.pending = .ok T)
    (hfree : (T.api_tokens.filter (fun r => r.token == w.tokens s.tkIdx)) = []) :
    findToken w (fuel + 1) s =
      (none, some (w.tokens s.tkIdx), {s with txn := T, pending := [], tkIdx := s.tkIdx + 1}) := by
  simp only [findToken, Schema.autoflush]
  rw [show ({s with tkIdx := s.tkIdx + 1} : Schema).pending = s.pending from rfl,
    show ({s with tkIdx := s.tkIdx + 1} : Schema).txn = s.txn from rfl, hfl]
  simp [hfree]

lemma findToken_exhaust0 (w : World) (fuel : Nat) (s : Schema) (hp : s.pending = [])
    (hcol : ∀ j, j < fuel → (s.txn.api_tokens.filter (fun r => r.token == w.tokens (s.tkIdx + j))) ≠ []) :
    findToken w fuel s = (none, none, {s with tkIdx := s.tkIdx + fuel}) := by
  induction fuel generalizing s with
  | zero =>
    cases s
    simp [findToken]
  | succ n ih =>
    have h0 := hcol 0 (Nat.succ_pos n)
    simp only [findToken]
    rw [autoflush_of_nil_pending (s := {s with tkIdx := s.tkIdx + 1}) hp]
    have hne : (({s with tkIdx := s.tkIdx + 1} : Schema).txn.api_tokens.filter
        (fun r => r.token == w.tokens s.tkIdx)).isEmpty = false := by
      simp only [List.isEmpty_iff]
      simpa using h0
    dsimp only
    rw [hne]
    simp only [Bool.false_eq_true, if_false]
    rw [ih {s with tkIdx := s.tkIdx + 1} hp (by
      intro j hj
      simpa [Nat.add_assoc, Nat.add_comm 1 j] using hcol (j + 1) (by omega))]
    congr 2
    simp [Nat.add_assoc, Nat.add_comm 1 n]

lemma findToken_cases (w : World) (fuel : Nat) (s : Schema) (hp : s.pending = []) :
    findToken w fuel s = (none, none, {s with tkIdx := s.tkIdx + fuel}) ∨
    ∃ j, j < fuel ∧
      findToken w fuel s = (none, some (w.tokens (s.tkIdx + j)), {s with tkIdx := s.tkIdx + j + 1}) ∧
      s.txn.api_tokens.filter (fun r => r.token == w.tokens (s.tkIdx + j)) = [] := by
  induction fuel generalizing s with
  | zero =>
    left
    cases s
    simp [findToken]
  | succ n ih =>
    simp only [findToken]
    rw [autoflush_of_nil_pending (s := {s with tkIdx := s.tkIdx + 1}) hp]
    dsimp only
    by_cases hfree : (({s with tkIdx := s.tkIdx + 1} : Schema).txn.api_tokens.filter
        (fun r => r.token == w.tokens s.tkIdx)) = []
    · right
      refine ⟨0, Nat.succ_pos n, ?_, by simpa using hfree⟩
      have hfree2 : (List.filter (fun r => r.token == w.tokens s.tkIdx)
          ({s with tkIdx := s.tkIdx + 1} : Schema).txn.api_tokens).isEmpty = true := by
        simp [hfree]
      rw [hfree2]
      simp
    · have hfree2 : (List.filter (fun r => r.token == w.tokens s.tkIdx)
          ({s with tkIdx := s.tkIdx + 1} : Schema).txn.api_tokens).isEmpty = false := by
        simp only [List.isEmpty_eq_false_iff_exists_mem]
        exact List.exists_mem_of_ne_nil _ hfree
      rw [hfree2]
      simp only [Bool.false_eq_true, if_false]
      rcases ih {s with tkIdx := s.tkIdx + 1} hp with hnone | ⟨j, hj, heq, hfil⟩
      · left
        rw [hnone]
        congr 2
        simp [Nat.add_assoc, Nat.add_comm 1 n]
      · right
        refine ⟨j + 1, by omega, ?_, ?_⟩
        · rw [heq]
          simp [Nat.add_assoc, Nat.add_comm, Nat.add_left_comm]
        · simpa [Nat.add_assoc, Nat.add_comm 1 j] using hfil

lemma findToken_exhaust_flush (w : World) (fuel : Nat) (s : Schema) (T : DB)
    (hfl : flushDB s.txn s.pending = .ok T)
    (hcol : ∀ j, j < fuel + 1 → T.api_tokens.filter (fun r => r.token == w.tokens (s.tkIdx + j)) ≠ []) :
    findToken w (fuel + 1) s =
      (none, none, {s with txn := T, pending := [], tkIdx := s.tkIdx + (fuel + 1)}) := by
  simp only [findToken, Schema.autoflush]
  rw [show ({s with tkIdx := s.tkIdx + 1} : Schema).pending = s.pending from rfl,
    show ({s with tkIdx := s.tkIdx + 1} : Schema).txn = s.txn from rfl, hfl]
  dsimp only
  have hfree2 : (List.filter (fun r => r.token == w.tokens s.tkIdx) T.api_tokens).isEmpty = false := by
    simp only [List.isEmpty_eq_false_iff_exists_mem]
    exact List.exists_mem_of_ne_nil _ (by simpa using hcol 0 (by omega))
  rw [hfree2]
  simp only [Bool.false_eq_true, if_false]
  rw [findToken_exhaust0 w fuel _ rfl (by
    intro j hj
    simpa [Nat.add_assoc, Nat.add_comm 1 j] using hcol (j + 1) (by omega))]
  congr 2
  simp [Nat.add_assoc, Nat.add_comm 1 fuel]

lemma create_token_false_run (w : World) (i : String) (s : Schema) (T : DB)
    (hfl : flushDB s.txn s.pending = .ok T)
    (hfree : T.api_tokens.filter (fun r => r.token == w.tokens s.tkIdx) = []) :
    create_token w i false s = (none,
      { db := s.db, txn := T,
        pending := [PRow.api ⟨i, w.tokens s.tkIdx, w.clock s.tick⟩,
          PRow.event ⟨i, "TOKEN_CREATE", w.clock (s.tick + 1)⟩],
        tick := s.tick + 2, tkIdx := s.tkIdx + 1, warnings := s.warnings }) := by
  have e1 : findToken w 99 s =
      (none, some (w.tokens s.tkIdx), {s with txn := T, pending := [], tkIdx := s.tkIdx + 1}) :=
    findToken_found w s 98 T hfl hfree
  simp [create_token, e1, register_event, Schema.now, andThen]

lemma revoke_token_false_run (w : World) (i : String) (s : Schema) (hp : s.pending = []) :
    revoke_token w i false s = (none,
      {s with txn := {s.txn with api_tokens := s.txn.api_tokens.filter (fun r => !(r.discord_id == i))},
              pending := [PRow.event ⟨i, "TOKEN_REVOKE", w.clock s.tick⟩],
              tick := s.tick + 1}) := by
  simp [revoke_token, autoflush_of_nil_pending hp, andThen, register_event, Schema.now, hp]

lemma regenerate_token_run (w : World) (i : String) (s : Schema)
    (hp : s.pending = []) (ht : s.txn = s.db)
    (hid : i.length ≤ 32)
    (hc0 : ∀ e ∈ s.db.events, w.clock s.tick ≠ e.created)
    (hc2 : ∀ e ∈ s.db.events, w.clock (s.tick + 2) ≠ e.created)
    (hfresh : s.db.api_tokens.filter (fun r => r.token == w.tokens s.tkIdx) = [])
    (hlen : (w.tokens s.tkIdx).length ≤ 64) :
    regenerate_token w i true s = (none,
      { db := regenDB w i s, txn := regenDB w i s, pending := [],
        tick := s.tick + 3, tkIdx := s.tkIdx + 1, warnings := s.warnings }) := by
  cases s with
  | mk db txn pending tick tkIdx warnings =>
    simp only at hp ht hc0 hc2 hfresh hlen ⊢
    subst hp
    have ht2 : db = txn := ht.symm
    subst ht2
    have h1 := revoke_token_false_run w i ⟨db, db, [], tick, tkIdx, warnings⟩ rfl
    have hfl1 : flushDB ({db with api_tokens := db.api_tokens.filter (fun r => !(r.discord_id == i))} : DB)
        [PRow.event ⟨i, "TOKEN_REVOKE", w.clock tick⟩]
        = .ok {db with api_tokens := db.api_tokens.filter (fun r => !(r.discord_id == i)),
                       events := db.events ++ [⟨i, "TOKEN_REVOKE", w.clock tick⟩]} := by
      simp +decide [flushDB, insertRow, rowFits, rowDup, addRow, hid,
        events_dup_false db.events i "TOKEN_REVOKE" (w.clock tick) hc0]
    have hfreeA : (db.api_tokens.filter (fun r => !(r.discord_id == i))).filter
        (fun r => r.token == w.tokens tkIdx) = [] :=
      filter_sub_nil db.api_tokens _ _ hfresh
    have h2 := create_token_false_run w i
      ⟨db, {db with api_tokens := db.api_tokens.filter (fun r => !(r.discord_id == i))},
        [PRow.event ⟨i, "TOKEN_REVOKE", w.clock tick⟩], tick + 1, tkIdx, warnings⟩
      {db with api_tokens := db.api_tokens.filter (fun r => !(r.discord_id == i)),
               events := db.events ++ [⟨i, "TOKEN_REVOKE", w.clock tick⟩]}
      hfl1 hfreeA
    simp only at h2
    simp +decide [regenerate_token, andThen, h1, h2, Schema.commit, flushDB, insertRow,
      rowFits, rowDup, addRow, hid, hlen, regenDB,
      api_dup_false _ i (w.tokens tkIdx) hfreeA,
      events_dup_false db.events i "TOKEN_CREATE" (w.clock (tick + 2)) hc2,
      Nat.add_assoc]

lemma create_user_true_run (w : World) (i : String) (s : Schema)
    (hp : s.pending = []) (ht : s.txn = s.db)
    (hid : i.length ≤ 32)
    (habsent : s.db.users.filter (fun r => r.discord_id == i) = [])
    (hc1 : ∀ e ∈ s.db.events, w.clock (s.tick + 1) ≠ e.created)
    (hc2 : ∀ e ∈ s.db.events, w.clock (s.tick + 2) ≠ e.created)
    (hc4 : ∀ e ∈ s.db.events, w.clock (s.tick + 4) ≠ e.created)
    (hfresh : s.db.api_tokens.filter (fun r => r.token == w.tokens s.tkIdx) = [])
    (hlen : (w.tokens s.tkIdx).length ≤ 64) :
    create_user w i true true s = (none,
      { db := createUserDB w i s, txn := createUserDB w i s, pending := [],
        tick := s.tick + 5, tkIdx := s.tkIdx + 1, warnings := s.warnings }) := by
  cases s with
  | mk db txn pending tick tkIdx warnings =>
    simp only at hp ht hid habsent hc1 hc2 hc4 hfresh hlen ⊢
    subst hp
    have ht2 : db = txn := ht.symm
    subst ht2
    have h1 := revoke_token_false_run w i
      { db := {db with
          users := db.users ++ [⟨i, w.clock tick⟩],
          events := db.events ++ [⟨i, "USER_CREATE", w.clock (tick + 1)⟩]},
        txn := {db with
          users := db.users ++ [⟨i, w.clock tick⟩],
          events := db.events ++ [⟨i, "USER_CREATE", w.clock (tick + 1)⟩]},
        pending := [], tick := tick + 2, tkIdx := tkIdx, warnings := warnings } rfl
    simp only at h1
    have hfreeA : (db.api_tokens.filter (fun r => !(r.discord_id == i))).filter
        (fun r => r.token == w.tokens tkIdx) = [] :=
      filter_sub_nil db.api_tokens _ _ hfresh
    have hfl2 : flushDB
        ({users := db.users ++ [⟨i, w.clock tick⟩],
          events := db.events ++ [⟨i, "USER_CREATE", w.clock (tick + 1)⟩],
          api_tokens := db.api_tokens.filter (fun r => !(r.discord_id == i)),
          auth_tokens := db.auth_tokens} : DB)
        [PRow.event ⟨i, "TOKEN_REVOKE", w.clock (tick + 2)⟩]
        = .ok
          ({users := db.users ++ [⟨i, w.clock tick⟩],
            events := db.events ++ [⟨i, "USER_CREATE", w.clock (tick + 1)⟩,
              ⟨i, "TOKEN_REVOKE", w.clock (tick + 2)⟩],
            api_tokens := db.api_tokens.filter (fun r => !(r.discord_id == i)),
            auth_tokens := db.auth_tokens} : DB) := by
      simp +decide [flushDB, insertRow, rowFits, rowDup, addRow, hid,
        events_dup_false db.events i "TOKEN_REVOKE" (w.clock (tick + 2)) hc2]
    have h2 := create_token_false_run w i
      { db := {db with
          users := db.users ++ [⟨i, w.clock tick⟩],
          events := db.events ++ [⟨i, "USER_CREATE", w.clock (tick + 1)⟩]},
        txn :=
          {users := db.users ++ [⟨i, w.clock tick⟩],
           events := db.events ++ [⟨i, "USER_CREATE", w.clock (tick + 1)⟩],
           api_tokens := db.api_tokens.filter (fun r => !(r.discord_id == i)),
           auth_tokens := db.auth_tokens},
        pending := [PRow.event ⟨i, "TOKEN_REVOKE", w.clock (tick + 2)⟩],
        tick := tick + 3, tkIdx := tkIdx, warnings := warnings }
      {users := db.users ++ [⟨i, w.clock tick⟩],
       events := db.events ++ [⟨i, "USER_CREATE", w.clock (tick + 1)⟩,
         ⟨i, "TOKEN_REVOKE", w.clock (tick + 2)⟩],
       api_tokens := db.api_tokens.filter (fun r => !(r.discord_id == i)),
       auth_tokens := db.auth_tokens}
      hfl2 hfreeA
    simp only at h2
    simp +decide [create_user, regenerate_token, andThen, register_event, Schema.now,
      Schema.commit, flushDB, insertRow, rowFits, rowDup, addRow, hid, hlen,
      h1, h2, createUserDB,
      user_dup_false db.users i habsent,
      events_dup_false db.events i "USER_CREATE" (w.clock (tick + 1)) hc1,
      events_dup_false db.events i "TOKEN_CREATE" (w.clock (tick + 4)) hc4,
      api_dup_false _ i (w.tokens tkIdx) hfreeA,
      Nat.add_assoc]

lemma create_user_false_run (w : World) (i : String) (s : Schema)
    (hp : s.pending = []) (ht : s.txn = s.db)
    (hid : i.length ≤ 32)
    (habsent : s.db.users.filter (fun r => r.discord_id == i) = [])
    (hc1 : ∀ e ∈ s.db.events, w.clock (s.tick + 1) ≠ e.created) :
    create_user w i false true s = (none,
      { db := {s.db with
          users := s.db.users ++ [⟨i, w.clock s.tick⟩],
          events := s.db.events ++ [⟨i, "USER_CREATE", w.clock (s.tick + 1)⟩]},
        txn := {s.db with
          users := s.db.users ++ [⟨i, w.clock s.tick⟩],
          events := s.db.events ++ [⟨i, "USER_CREATE", w.clock (s.tick + 1)⟩]},
        pending := [], tick := s.tick + 2, tkIdx := s.tkIdx,
        warnings := s.warnings }) := by
  cases s with
  | mk db txn pending tick tkIdx warnings =>
    simp only at hp ht hid habsent hc1 ⊢
    subst hp
    have ht2 : db = txn := ht.symm
    subst ht2
    simp +decide [create_user, andThen, register_event, Schema.now, Schema.commit,
      flushDB, insertRow, rowFits, rowDup, addRow, hid,
      user_dup_false db.users i habsent,
      events_dup_false db.events i "USER_CREATE" (w.clock (tick + 1)) hc1]

lemma ensure_user_present (w : World) (i : String) (gt c : Bool) (s : Schema)
    (hp : s.pending = [])
    (hpresent : s.txn.users.filter (fun r => r.discord_id == i) ≠ []) :
    ensure_user w i gt c s = (none, s) := by
  have hne : (s.txn.users.filter (fun r => r.discord_id == i)).isEmpty = false := by
    rw [List.isEmpty_eq_false_iff_exists_mem]
    exact List.exists_mem_of_ne_nil _ hpresent
  simp [ensure_user, autoflush_of_nil_pending hp, andThen, hne]

lemma ensure_user_absent (w : World) (i : String) (gt c : Bool) (s : Schema)
    (hp : s.pending = [])
    (habsent : s.txn.users.filter (fun r => r.discord_id == i) = []) :
    ensure_user w i gt c s = create_user w i gt c s := by
  simp [ensure_user, autoflush_of_nil_pending hp, andThen, habsent]

lemma ensure_iter_fixed (w : World) (i : String) (s : Schema) (hp : s.pending = [])
    (hpresent : s.txn.users.filter (fun r => r.discord_id == i) ≠ []) :
    ∀ N, ensure_user_iter w i N s = s := by
  intro N
  induction N with
  | zero => rfl
  | succ n ih =>
    show ensure_user_iter w i n (ensure_user w i true true s).2 = s
    rw [ensure_user_present w i true true s hp hpresent]
    exact ih

lemma set_auth_discord_run (w : World) (i v : String) (s : Schema)
    (hp : s.pending = []) (ht : s.txn = s.db)
    (hid : i.length ≤ 32) (hv : v.length ≤ 1024)
    (hc1 : ∀ e ∈ s.db.events, w.clock (s.tick + 1) ≠ e.created) :
    set_auth_discord w i v true s = (none,
      { db := setAuthDB w i v s, txn := setAuthDB w i v s, pending := [],
        tick := s.tick + 2, tkIdx := s.tkIdx, warnings := s.warnings }) := by
  cases s with
  | mk db txn pending tick tkIdx warnings =>
    simp only at hp ht hid hv hc1 ⊢
    subst hp
    have ht2 : db = txn := ht.symm
    subst ht2
    have hauth : ∀ r ∈ db.auth_tokens.filter (fun r => !(r.discord_id == i)),
        (r.discord_id == i) = false := by
      intro r hr
      have h1 := List.of_mem_filter hr
      simpa using h1
    simp +decide [set_auth_discord, andThen, register_event, Schema.now, Schema.commit,
      Schema.autoflush, flushDB, insertRow, rowFits, rowDup, addRow, hid, hv, setAuthDB,
      auth_dup_false _ i "DISCORD" v hauth,
      events_dup_false db.events i "AUTHENTICATE_DISCORD" (w.clock (tick + 1)) hc1]

/-- C1: the claim says calling `create_user` twice with the same account ID
(default flags) fails with DuplicateIdentity on the second call.  On the code
the second call returns without error: `register_event` (called with
`commit=True` before `create_user`'s own commit) flushes the duplicate `User`
row, and its `except IntegrityError` swallows the failure with the
event-duplicate warning, after which the token is even revoked and
regenerated.  Only the second half of the claim holds: exactly one `User`
row remains. -/
theorem duplicate_create_user_is_swallowed :
    (create_user wT "42" true true sAfterCreate).1 = none ∧
    (create_user wT "42" true true sAfterCreate).2.db.users = [⟨"42", 0⟩] ∧
    (create_user wT "42" true true sAfterCreate).2.warnings
      = ["Attempting to commit events too quickly!"] ∧
    (create_user wT "42" true true sAfterCreate).2.db.api_tokens = [⟨"42", "aa", 8⟩] := by
  decide

/-- C2: for an account whose active API token is `T1` (held by no other
account, per the global-uniqueness invariant), `regenerate_token(i,
commit=True)` succeeds, `get_api_token(i)` afterwards returns the freshly
generated token `T2 ≠ T1`, `get_api_user(T1)` fails NotFound, and
`get_api_user(T2)` returns the account ID.  Freshness of the generated
token and of the event timestamps models the randomness of
`secrets.token_urlsafe` and a monotone clock. -/
theorem regenerate_token_rotates
    (w : World) (i T1 : String) (s : Schema)
    (hp : s.pending = []) (ht : s.txn = s.db)
    (hid : i.length ≤ 32)
    (hT1 : ∃ c, (⟨i, T1, c⟩ : ApiToken) ∈ s.db.api_tokens)
    (honly : ∀ r ∈ s.db.api_tokens, r.token = T1 → r.discord_id = i)
    (hfresh : ∀ r ∈ s.db.api_tokens, r.token ≠ w.tokens s.tkIdx)
    (hlen : (w.tokens s.tkIdx).length ≤ 64)
    (hc0 : ∀ e ∈ s.db.events, w.clock s.tick ≠ e.created)
    (hc2 : ∀ e ∈ s.db.events, w.clock (s.tick + 2) ≠ e.created) :
    (regenerate_token w i true s).1 = none ∧
    w.tokens s.tkIdx ≠ T1 ∧
    (get_api_token i (regenerate_token w i true s).2).2.1 = some (w.tokens s.tkIdx) ∧
    (get_api_user T1 (regenerate_token w i true s).2).1 = some Err.NotFound ∧
    (get_api_user (w.tokens s.tkIdx) (regenerate_token w i true s).2).2.1 = some i := by
  have hfresh2 : s.db.api_tokens.filter (fun r => r.token == w.tokens s.tkIdx) = [] := by
    rw [List.filter_eq_nil_iff]
    intro r hr
    simpa using hfresh r hr
  have hrun := regenerate_token_run w i s hp ht hid hc0 hc2 hfresh2 hlen
  have hne : w.tokens s.tkIdx ≠ T1 := by
    rcases hT1 with ⟨c, hc⟩
    exact fun h => (hfresh _ hc) (by simpa using h.symm)
  rw [hrun]
  refine ⟨rfl, hne, ?_, ?_, ?_⟩
  · -- get_api_token i returns the new token
    have hnil : (s.db.api_tokens.filter (fun r => !(r.discord_id == i))).filter
        (fun r => r.discord_id == i) = [] := filter_neg_filter_nil _ _
    simp [get_api_token, Schema.autoflush, flushDB, regenDB, List.filter_append, hnil]
  · -- get_api_user T1 fails NotFound
    have hT1nil : (s.db.api_tokens.filter (fun r => !(r.discord_id == i))).filter
        (fun r => r.token == T1) = [] := by
      rw [List.filter_eq_nil_iff]
      intro r hr
      have h1 := List.of_mem_filter hr
      have h2 := List.mem_of_mem_filter hr
      simp only [Bool.not_eq_eq_eq_not, Bool.not_true, beq_eq_false_iff_ne] at h1
      simp only [beq_iff_eq]
      exact fun htok => h1 (honly r h2 htok)
    have hneb : (w.tokens s.tkIdx == T1) = false := by
      simp [hne]
    simp [get_api_user, Schema.autoflush, flushDB, regenDB, List.filter_append, hT1nil, hneb]
  · -- get_api_user on the new token returns the account
    have hnil2 : (s.db.api_tokens.filter (fun r => !(r.discord_id == i))).filter
        (fun r => r.token == w.tokens s.tkIdx) = [] :=
      filter_sub_nil _ _ _ hfresh2
    simp [get_api_user, Schema.autoflush, flushDB, regenDB, List.filter_append, hnil2]

/-- C2 witness: the concrete scenario of the claim, starting from a fresh
store that has just created user "42" with token "a". -/
theorem regenerate_token_rotates_witness :
    (regenerate_token wT "42" true sAfterCreate).1 = none ∧
    wT.tokens sAfterCreate.tkIdx ≠ "a" ∧
    (get_api_token "42" (regenerate_token wT "42" true sAfterCreate).2).2.1
      = some (wT.tokens sAfterCreate.tkIdx) ∧
    (get_api_user "a" (regenerate_token wT "42" true sAfterCreate).2).1 = some Err.NotFound ∧
    (get_api_user (wT.tokens sAfterCreate.tkIdx) (regenerate_token wT "42" true sAfterCreate).2).2.1
      = some "42" :=
  regenerate_token_rotates wT "42" "a" sAfterCreate rfl rfl (by decide)
    ⟨3, by decide⟩ (by decide) (by decide) (by decide) (by decide) (by decide)

/-- C3: `create_token` draws up to 99 candidate tokens.  If every one of the
99 candidates collides with a token already in `api_tokens`, it fails with
the TokenGenerationExhausted error (`RuntimeError`) and the store is
unchanged except for the consumed randomness; whenever it succeeds, the
single inserted `ApiToken` row carries a token value that was absent from
the whole table at insert time (global uniqueness). -/
theorem create_token_collision_retry
    (w : World) (i : String) (s : Schema)
    (hp : s.pending = []) (ht : s.txn = s.db)
    (hclk : ∀ e ∈ s.db.events, w.clock (s.tick + 1) ≠ e.created) :
    ((∀ j, j < 99 → s.db.api_tokens.filter (fun r => r.token == w.tokens (s.tkIdx + j)) ≠ []) →
      create_token w i true s = (some Err.TokenExhausted, {s with tkIdx := s.tkIdx + 99})) ∧
    (∀ s2, create_token w i true s = (none, s2) →
      ∃ r : ApiToken, r.discord_id = i ∧
        s2.db.api_tokens = s.db.api_tokens ++ [r] ∧
        s.db.api_tokens.filter (fun x => x.token == r.token) = []) := by
  constructor
  · intro hcol
    have he : findToken w 99 s = (none, none, {s with tkIdx := s.tkIdx + 99}) :=
      findToken_exhaust0 w 99 s hp (by rw [ht]; exact hcol)
    simp [create_token, he]
  · intro s2 h
    rcases findToken_cases w 99 s hp with hnone | ⟨j, hj, heq, hfree⟩
    · have hx : create_token w i true s = (some Err.TokenExhausted, {s with tkIdx := s.tkIdx + 99}) := by
        simp [create_token, hnone]
      rw [hx] at h
      simp at h
    · have hfree' : s.db.api_tokens.filter (fun r => r.token == w.tokens (s.tkIdx + j)) = [] := by
        rw [← ht]; exact hfree
      by_cases hfits : rowFits (PRow.api ⟨i, w.tokens (s.tkIdx + j), w.clock s.tick⟩) = true
      · have hfits2 : i.length ≤ 32 ∧ (w.tokens (s.tkIdx + j)).length ≤ 64 := by
          simpa [rowFits] using hfits
        cases s with
        | mk db txn pending tick tkIdx warnings =>
          simp only at hp ht hclk heq hfree' hfits2 h ⊢
          subst hp
          have ht2 : db = txn := ht.symm
          subst ht2
          have hrun : create_token w i true ⟨db, db, [], tick, tkIdx, warnings⟩ = (none,
              { db := {db with
                  events := db.events ++ [⟨i, "TOKEN_CREATE", w.clock (tick + 1)⟩],
                  api_tokens := db.api_tokens ++ [⟨i, w.tokens (tkIdx + j), w.clock tick⟩]},
                txn := {db with
                  events := db.events ++ [⟨i, "TOKEN_CREATE", w.clock (tick + 1)⟩],
                  api_tokens := db.api_tokens ++ [⟨i, w.tokens (tkIdx + j), w.clock tick⟩]},
                pending := [], tick := tick + 2, tkIdx := tkIdx + j + 1,
                warnings := warnings }) := by
            simp +decide [create_token, heq, register_event, Schema.now, Schema.commit,
              andThen, flushDB, insertRow, rowFits, rowDup, addRow, hfits2.1, hfits2.2,
              api_dup_false db.api_tokens i (w.tokens (tkIdx + j)) hfree',
              events_dup_false db.events i "TOKEN_CREATE" (w.clock (tick + 1)) hclk]
          rw [hrun] at h
          simp only [Prod.mk.injEq, true_and] at h
          refine ⟨⟨i, w.tokens (tkIdx + j), w.clock tick⟩, rfl, ?_, hfree'⟩
          rw [← h]
      · have hfits2 : rowFits (PRow.api ⟨i, w.tokens (s.tkIdx + j), w.clock s.tick⟩) = false := by
          revert hfits
          cases rowFits (PRow.api ⟨i, w.tokens (s.tkIdx + j), w.clock s.tick⟩) <;> simp
        have h1 : (create_token w i true s).1 = some Err.DataError := by
          simp [create_token, heq, hp, register_event, Schema.now, Schema.commit,
            andThen, flushDB, insertRow, hfits2]
        rw [h] at h1
        simp at h1

/-- C3 witness. -/
theorem create_token_collision_retry_witness :
    ((∀ j, j < 99 → (Schema.init DB.empty).db.api_tokens.filter
        (fun r => r.token == wT.tokens ((Schema.init DB.empty).tkIdx + j)) ≠ []) →
      create_token wT "42" true (Schema.init DB.empty)
        = (some Err.TokenExhausted,
          {Schema.init DB.empty with tkIdx := (Schema.init DB.empty).tkIdx + 99})) ∧
    (∀ s2, create_token wT "42" true (Schema.init DB.empty) = (none, s2) →
      ∃ r : ApiToken, r.discord_id = "42" ∧
        s2.db.api_tokens = (Schema.init DB.empty).db.api_tokens ++ [r] ∧
        (Schema.init DB.empty).db.api_tokens.filter (fun x => x.token == r.token) = []) :=
  create_token_collision_retry wT "42" (Schema.init DB.empty) rfl rfl (by decide)

/-- C4 counterexample: the claim says `set_auth_discord` deletes only the
(account, provider) pair's row and leaves a same-account row of a different
provider unchanged.  The source deletes by `discord_id` alone, so the
"OTHER"-provider row of account "1" is gone after the call. -/
theorem set_auth_discord_other_provider_deleted :
    (set_auth_discord wT "1" "v" true sAuthPre).1 = none ∧
    (⟨"1", "OTHER", "x", 0⟩ : AuthToken) ∈ sAuthPre.db.auth_tokens ∧
    (set_auth_discord wT "1" "v" true sAuthPre).2.db.auth_tokens.filter
      (fun r => r.provider == "OTHER") = [] := by
  decide

/-- C4 (amended): `set_auth_discord(i, v)` deletes ALL of the account's
auth-token rows, regardless of provider, then inserts the new (i, DISCORD,
v) row; auth tokens of every other account, the users table and the
api_tokens table are unchanged. -/
theorem set_auth_discord_deletes_all_account_tokens
    (w : World) (i v : String) (s : Schema)
    (hp : s.pending = []) (ht : s.txn = s.db)
    (hid : i.length ≤ 32) (hv : v.length ≤ 1024)
    (hc1 : ∀ e ∈ s.db.events, w.clock (s.tick + 1) ≠ e.created) :
    (set_auth_discord w i v true s).1 = none ∧
    (set_auth_discord w i v true s).2.db.auth_tokens
      = s.db.auth_tokens.filter (fun r => !(r.discord_id == i))
        ++ [⟨i, "DISCORD", v, w.clock s.tick⟩] ∧
    (set_auth_discord w i v true s).2.db.users = s.db.users ∧
    (set_auth_discord w i v true s).2.db.api_tokens = s.db.api_tokens := by
  have hrun := set_auth_discord_run w i v s hp ht hid hv hc1
  rw [hrun]
  exact ⟨rfl, rfl, rfl, rfl⟩

/-- C4 witness. -/
theorem set_auth_discord_deletes_all_account_tokens_witness :
    (set_auth_discord wT "1" "w" true sAuthPre).1 = none ∧
    (set_auth_discord wT "1" "w" true sAuthPre).2.db.auth_tokens
      = sAuthPre.db.auth_tokens.filter (fun r => !(r.discord_id == "1"))
        ++ [⟨"1", "DISCORD", "w", wT.clock sAuthPre.tick⟩] ∧
    (set_auth_discord wT "1" "w" true sAuthPre).2.db.users = sAuthPre.db.users ∧
    (set_auth_discord wT "1" "w" true sAuthPre).2.db.api_tokens = sAuthPre.db.api_tokens :=
  set_auth_discord_deletes_all_account_tokens wT "1" "w" sAuthPre rfl rfl
    (by decide) (by decide) (by decide)

/-- C5: `ensure_user` (default flags) is idempotent: for every N ≥ 1,
calling it N times equals calling it once, the store then holds exactly one
`User` row for the ID, and at most one `TOKEN_CREATE` event is added by the
whole sequence; calls after the first are exact no-ops. -/
theorem ensure_user_idempotent
    (w : World) (i : String) (s : Schema)
    (hp : s.pending = []) (ht : s.txn = s.db)
    (hid : i.length ≤ 32)
    (huniq : (s.db.users.filter (fun r => r.discord_id == i)).length ≤ 1)
    (hc1 : ∀ e ∈ s.db.events, w.clock (s.tick + 1) ≠ e.created)
    (hc2 : ∀ e ∈ s.db.events, w.clock (s.tick + 2) ≠ e.created)
    (hc4 : ∀ e ∈ s.db.events, w.clock (s.tick + 4) ≠ e.created)
    (hfresh : s.db.api_tokens.filter (fun r => r.token == w.tokens s.tkIdx) = [])
    (hlen : (w.tokens s.tkIdx).length ≤ 64)
    (N : Nat) (hN : 1 ≤ N) :
    ensure_user_iter w i N s = (ensure_user w i true true s).2 ∧
    (ensure_user w i true true s).1 = none ∧
    ((ensure_user w i true true s).2.db.users.filter
      (fun r => r.discord_id == i)).length = 1 ∧
    tokenCreateCount i (ensure_user w i true true s).2.db ≤ tokenCreateCount i s.db + 1 := by
  obtain ⟨n, rfl⟩ : ∃ n, N = n + 1 := ⟨N - 1, by omega⟩
  by_cases hcase : s.db.users.filter (fun r => r.discord_id == i) = []
  · have habs : s.txn.users.filter (fun r => r.discord_id == i) = [] := by rw [ht]; exact hcase
    have he := ensure_user_absent w i true true s hp habs
    have hrun := create_user_true_run w i s hp ht hid hcase hc1 hc2 hc4 hfresh hlen
    have hs1 : ensure_user w i true true s = (none,
        { db := createUserDB w i s, txn := createUserDB w i s, pending := [],
          tick := s.tick + 5, tkIdx := s.tkIdx + 1, warnings := s.warnings }) := by
      rw [he, hrun]
    have hpres1 : (ensure_user w i true true s).2.txn.users.filter
        (fun r => r.discord_id == i) ≠ [] := by
      rw [hs1]
      simp [createUserDB, List.filter_append, hcase]
    have hp1 : (ensure_user w i true true s).2.pending = [] := by
      rw [hs1]
    refine ⟨?_, ?_, ?_, ?_⟩
    · show ensure_user_iter w i n (ensure_user w i true true s).2 = (ensure_user w i true true s).2
      exact ensure_iter_fixed w i _ hp1 hpres1 n
    · rw [hs1]
    · rw [hs1]
      simp [createUserDB, List.filter_append, hcase]
    · rw [hs1]
      simp [tokenCreateCount, createUserDB, List.filter_append]
  · have hpres : s.txn.users.filter (fun r => r.discord_id == i) ≠ [] := by
      rw [ht]; exact hcase
    have he := ensure_user_present w i true true s hp hpres
    refine ⟨?_, ?_, ?_, ?_⟩
    · show ensure_user_iter w i n (ensure_user w i true true s).2 = (ensure_user w i true true s).2
      rw [he]
      exact ensure_iter_fixed w i s hp hpres n
    · rw [he]
    · rw [he]
      dsimp only
      have hpos : 0 < (s.db.users.filter (fun r => r.discord_id == i)).length :=
        List.length_pos.mpr hcase
      omega
    · rw [he]
      dsimp only
      omega

/-- C5 witness: three calls on a fresh store. -/
theorem ensure_user_idempotent_witness :
    ensure_user_iter wT "3" 3 (Schema.init DB.empty)
      = (ensure_user wT "3" true true (Schema.init DB.empty)).2 ∧
    (ensure_user wT "3" true true (Schema.init DB.empty)).1 = none ∧
    ((ensure_user wT "3" true true (Schema.init DB.empty)).2.db.users.filter
      (fun r => r.discord_id == "3")).length = 1 ∧
    tokenCreateCount "3" (ensure_user wT "3" true true (Schema.init DB.empty)).2.db
      ≤ tokenCreateCount "3" (Schema.init DB.empty).db + 1 :=
  ensure_user_idempotent wT "3" (Schema.init DB.empty) rfl rfl (by decide) (by decide)
    (by decide) (by decide) (by decide) (by decide) (by decide) 3 (by decide)

/-- C6: `revoke_token` on an account that has no `ApiToken` rows succeeds
(no error), leaves `api_tokens` (and `users`) unchanged, and still appends a
`TOKEN_REVOKE` event for the account. -/
theorem revoke_token_no_tokens_general
    (w : World) (i : String) (s : Schema)
    (hp : s.pending = []) (ht : s.txn = s.db)
    (hid : i.length ≤ 32)
    (hnone : s.db.api_tokens.filter (fun r => r.discord_id == i) = [])
    (hclock : ∀ e ∈ s.db.events, w.clock s.tick ≠ e.created) :
    (revoke_token w i true s).1 = none ∧
    ((revoke_token w i true s).2).db.api_tokens = s.db.api_tokens ∧
    ((revoke_token w i true s).2).db.events
      = s.db.events ++ [⟨i, "TOKEN_REVOKE", w.clock s.tick⟩] ∧
    ((revoke_token w i true s).2).db.users = s.db.users := by
  have hkeep : s.db.api_tokens.filter (fun r => !(r.discord_id == i)) = s.db.api_tokens :=
    filter_neg_eq_self hnone
  have hdupany : (s.db.events.any fun x =>
      x.discord_id == i && x.action == "TOKEN_REVOKE" && x.created == w.clock s.tick) = false :=
    events_dup_false s.db.events i "TOKEN_REVOKE" (w.clock s.tick) hclock
  cases s with
  | mk db txn pending tick tkIdx warnings =>
    simp only at hp ht hkeep hdupany hnone hclock ⊢
    subst hp
    have ht2 : db = txn := ht.symm
    subst ht2
    simp +decide [revoke_token, Schema.autoflush, andThen, register_event, Schema.now,
      Schema.commit, flushDB, insertRow, rowFits, rowDup, addRow, hid, hkeep, hdupany]

/-- C6 witness. -/
theorem revoke_token_no_tokens_witness :
    (revoke_token wT "5" true {s6W with tick := 1}).1 = none ∧
    ((revoke_token wT "5" true {s6W with tick := 1}).2).db.api_tokens
      = ({s6W with tick := 1} : Schema).db.api_tokens ∧
    ((revoke_token wT "5" true {s6W with tick := 1}).2).db.events
      = ({s6W with tick := 1} : Schema).db.events
        ++ [⟨"5", "TOKEN_REVOKE", wT.clock ({s6W with tick := 1} : Schema).tick⟩] ∧
    ((revoke_token wT "5" true {s6W with tick := 1}).2).db.users
      = ({s6W with tick := 1} : Schema).db.users :=
  revoke_token_no_tokens_general wT "5" {s6W with tick := 1} rfl rfl (by decide)
    (by decide) (by decide)

/-- C7: when the commit inside `register_event` hits a duplicate-key
condition (an `Event` row with the same account, action and timestamp is
already recorded), the `IntegrityError` is swallowed: `register_event`
returns normally to its caller — so the caller's primary operation is never
aborted — the only effects being the rolled-back session and the appended
warning. -/
theorem register_event_duplicate_swallowed
    (w : World) (i a : String) (s : Schema)
    (hp : s.pending = []) (ht : s.txn = s.db)
    (hid : i.length ≤ 32) (hact : a.length ≤ 64)
    (hdup : ∃ e ∈ s.db.events, e.discord_id = i ∧ e.action = a ∧ e.created = w.clock s.tick) :
    register_event w i a true s = (none,
      {s with txn := s.db, tick := s.tick + 1,
              warnings := s.warnings ++ ["Attempting to commit events too quickly!"]}) := by
  have hany : (s.db.events.any fun x =>
      x.discord_id == i && x.action == a && x.created == w.clock s.tick) = true := by
    rcases hdup with ⟨e, hmem, h1, h2, h3⟩
    rw [List.any_eq_true]
    exact ⟨e, hmem, by simp [h1, h2, h3]⟩
  cases s with
  | mk db txn pending tick tkIdx warnings =>
    simp only at hp ht hany ⊢
    subst hp
    have ht2 : db = txn := ht.symm
    subst ht2
    simp +decide [register_event, Schema.now, Schema.commit, flushDB, insertRow,
      rowFits, rowDup, addRow, hid, hact, hany]

/-- C7 witness. -/
theorem register_event_duplicate_swallowed_witness :
    register_event wT "7" "PING" true s7W = (none,
      {s7W with txn := s7W.db, tick := s7W.tick + 1,
                warnings := s7W.warnings ++ ["Attempting to commit events too quickly!"]}) :=
  register_event_duplicate_swallowed wT "7" "PING" s7W rfl rfl (by decide) (by decide)
    ⟨⟨"7", "PING", 0⟩, by decide, rfl, rfl, rfl⟩

/-- C8 counterexample: the claim says `create_user(i,
generate_token=False)` followed by `get_api_token(i)` fails NotFound for
every valid ID not already present.  From the reachable state in which
account "9" was created with a token and then deleted (delete_user does not
cascade), the ID is absent from `users`, yet after re-creating it without a
token `get_api_token("9")` returns the orphaned token "a" instead of
failing NotFound. -/
theorem create_user_no_token_get_api_token_succeeds :
    sOrphan.db.users.filter (fun r => r.discord_id == "9") = [] ∧
    (create_user wT "9" false true sOrphan).1 = none ∧
    (get_api_token "9" (create_user wT "9" false true sOrphan).2).1 = none ∧
    (get_api_token "9" (create_user wT "9" false true sOrphan).2).2.1 = some "a" := by
  decide

/-- C8 (amended): for a valid fresh account ID with no pre-existing
(orphaned) `ApiToken` rows, `create_user` followed by `get_api_token`
returns a non-empty token when `generate_token=True`, and fails NotFound
when `generate_token=False`. -/
theorem create_user_then_get_api_token
    (w : World) (i : String) (s : Schema)
    (hp : s.pending = []) (ht : s.txn = s.db)
    (hid : i.length ≤ 32)
    (habsent : s.db.users.filter (fun r => r.discord_id == i) = [])
    (hnoapi : s.db.api_tokens.filter (fun r => r.discord_id == i) = [])
    (hc1 : ∀ e ∈ s.db.events, w.clock (s.tick + 1) ≠ e.created)
    (hc2 : ∀ e ∈ s.db.events, w.clock (s.tick + 2) ≠ e.created)
    (hc4 : ∀ e ∈ s.db.events, w.clock (s.tick + 4) ≠ e.created)
    (hfresh : s.db.api_tokens.filter (fun r => r.token == w.tokens s.tkIdx) = [])
    (hlen : (w.tokens s.tkIdx).length ≤ 64)
    (hpos : w.tokens s.tkIdx ≠ "") :
    ((get_api_token i (create_user w i true true s).2).1 = none ∧
      ∃ t, (get_api_token i (create_user w i true true s).2).2.1 = some t ∧ t ≠ "") ∧
    (get_api_token i (create_user w i false true s).2).1 = some Err.NotFound := by
  constructor
  · have hrun := create_user_true_run w i s hp ht hid habsent hc1 hc2 hc4 hfresh hlen
    rw [hrun]
    have hnil : (s.db.api_tokens.filter (fun r => !(r.discord_id == i))).filter
        (fun r => r.discord_id == i) = [] := filter_neg_filter_nil _ _
    constructor
    · simp [get_api_token, Schema.autoflush, flushDB, createUserDB, List.filter_append, hnil]
    · refine ⟨w.tokens s.tkIdx, ?_, hpos⟩
      simp [get_api_token, Schema.autoflush, flushDB, createUserDB, List.filter_append, hnil]
  · have hrun := create_user_false_run w i s hp ht hid habsent hc1
    rw [hrun]
    simp [get_api_token, Schema.autoflush, flushDB, hnoapi]

/-- C8 witness. -/
theorem create_user_then_get_api_token_witness :
    ((get_api_token "8" (create_user wT "8" true true (Schema.init DB.empty)).2).1 = none ∧
      ∃ t, (get_api_token "8" (create_user wT "8" true true (Schema.init DB.empty)).2).2.1
        = some t ∧ t ≠ "") ∧
    (get_api_token "8" (create_user wT "8" false true (Schema.init DB.empty)).2).1
      = some Err.NotFound :=
  create_user_then_get_api_token wT "8" (Schema.init DB.empty) rfl rfl (by decide)
    (by decide) (by decide) (by decide) (by decide) (by decide) (by decide) (by decide)
    (by decide)

/-- C9: calling `set_auth_discord` twice for the same account with values
`v1` then `v2` leaves exactly one `AuthToken` row for the (account,
DISCORD) pair, and its token value is `v2`. -/
theorem set_auth_discord_last_wins
    (w : World) (i v1 v2 : String) (s : Schema)
    (hp : s.pending = []) (ht : s.txn = s.db)
    (hid : i.length ≤ 32) (hv1 : v1.length ≤ 1024) (hv2 : v2.length ≤ 1024)
    (hc1 : ∀ e ∈ s.db.events, w.clock (s.tick + 1) ≠ e.created)
    (hc3 : ∀ e ∈ s.db.events, w.clock (s.tick + 3) ≠ e.created)
    (hc31 : w.clock (s.tick + 3) ≠ w.clock (s.tick + 1)) :
    (set_auth_discord w i v2 true (set_auth_discord w i v1 true s).2).1 = none ∧
    (set_auth_discord w i v2 true (set_auth_discord w i v1 true s).2).2.db.auth_tokens.filter
      (fun r => r.discord_id == i && r.provider == "DISCORD")
      = [⟨i, "DISCORD", v2, w.clock (s.tick + 2)⟩] := by
  have hrun1 := set_auth_discord_run w i v1 s hp ht hid hv1 hc1
  rw [hrun1]
  have hc1b : ∀ e ∈ (setAuthDB w i v1 s).events, w.clock (s.tick + 2 + 1) ≠ e.created := by
    intro e he
    rw [setAuthDB] at he
    simp only [List.mem_append, List.mem_singleton] at he
    rcases he with he | he
    · exact (by simpa [Nat.add_assoc] using hc3 e he)
    · subst he
      simpa [Nat.add_assoc] using hc31
  have hrun2 := set_auth_discord_run w i v2
    { db := setAuthDB w i v1 s, txn := setAuthDB w i v1 s, pending := [],
      tick := s.tick + 2, tkIdx := s.tkIdx, warnings := s.warnings }
    rfl rfl hid hv2 hc1b
  rw [hrun2]
  refine ⟨rfl, ?_⟩
  have hnil : ((setAuthDB w i v1 s).auth_tokens.filter (fun r => !(r.discord_id == i))).filter
      (fun r => r.discord_id == i && r.provider == "DISCORD") = [] := by
    rw [List.filter_eq_nil_iff]
    intro r hr
    have h1 := List.of_mem_filter hr
    simp only [Bool.not_eq_eq_eq_not, Bool.not_true, beq_eq_false_iff_ne] at h1
    simp [h1]
  simp [setAuthDB, List.filter_append, hnil]
  intro a _ ha _
  exact ha

/-- C9 witness. -/
theorem set_auth_discord_last_wins_witness :
    (set_auth_discord wT "1" "v2" true (set_auth_discord wT "1" "v1" true sAuthPre).2).1 = none ∧
    (set_auth_discord wT "1" "v2" true
        (set_auth_discord wT "1" "v1" true sAuthPre).2).2.db.auth_tokens.filter
      (fun r => r.discord_id == "1" && r.provider == "DISCORD")
      = [⟨"1", "DISCORD", "v2", wT.clock (sAuthPre.tick + 2)⟩] :=
  set_auth_discord_last_wins wT "1" "v1" "v2" sAuthPre rfl rfl (by decide) (by decide)
    (by decide) (by decide) (by decide) (by decide)

/-- C10: `create_user` with `generate_token=True, commit=True` is not
atomic: the `User` row and the `USER_CREATE` event are committed by
`register_event` before token generation runs, so when token generation
exhausts its 99 attempts the call raises TokenGenerationExhausted while the
committed store already contains the user row and the `USER_CREATE` event
and still contains no `ApiToken` row for the account. -/
theorem create_user_commits_before_token_generation
    (w : World) (i : String) (s : Schema)
    (hp : s.pending = []) (ht : s.txn = s.db)
    (hid : i.length ≤ 32)
    (habsent : s.db.users.filter (fun r => r.discord_id == i) = [])
    (hnoapi : s.db.api_tokens.filter (fun r => r.discord_id == i) = [])
    (hc1 : ∀ e ∈ s.db.events, w.clock (s.tick + 1) ≠ e.created)
    (hc2 : ∀ e ∈ s.db.events, w.clock (s.tick + 2) ≠ e.created)
    (hcol : ∀ j, j < 99 → s.db.api_tokens.filter (fun r => r.token == w.tokens (s.tkIdx + j)) ≠ []) :
    (create_user w i true true s).1 = some Err.TokenExhausted ∧
    (⟨i, w.clock s.tick⟩ : User) ∈ (create_user w i true true s).2.db.users ∧
    (⟨i, "USER_CREATE", w.clock (s.tick + 1)⟩ : Event) ∈ (create_user w i true true s).2.db.events ∧
    (create_user w i true true s).2.db.api_tokens.filter (fun r => r.discord_id == i) = [] := by
  have hkeep : s.db.api_tokens.filter (fun r => !(r.discord_id == i)) = s.db.api_tokens :=
    filter_neg_eq_self hnoapi
  cases s with
  | mk db txn pending tick tkIdx warnings =>
    simp only at hp ht hid habsent hnoapi hc1 hc2 hcol hkeep ⊢
    subst hp
    have ht2 : db = txn := ht.symm
    subst ht2
    have h1 := revoke_token_false_run w i
      { db := {db with
          users := db.users ++ [⟨i, w.clock tick⟩],
          events := db.events ++ [⟨i, "USER_CREATE", w.clock (tick + 1)⟩]},
        txn := {db with
          users := db.users ++ [⟨i, w.clock tick⟩],
          events := db.events ++ [⟨i, "USER_CREATE", w.clock (tick + 1)⟩]},
        pending := [], tick := tick + 2, tkIdx := tkIdx, warnings := warnings } rfl
    simp only at h1
    rw [hkeep] at h1
    have hfl2 : flushDB
        ({users := db.users ++ [⟨i, w.clock tick⟩],
          events := db.events ++ [⟨i, "USER_CREATE", w.clock (tick + 1)⟩],
          api_tokens := db.api_tokens,
          auth_tokens := db.auth_tokens} : DB)
        [PRow.event ⟨i, "TOKEN_REVOKE", w.clock (tick + 2)⟩]
        = .ok
          ({users := db.users ++ [⟨i, w.clock tick⟩],
            events := db.events ++ [⟨i, "USER_CREATE", w.clock (tick + 1)⟩,
              ⟨i, "TOKEN_REVOKE", w.clock (tick + 2)⟩],
            api_tokens := db.api_tokens,
            auth_tokens := db.auth_tokens} : DB) := by
      simp +decide [flushDB, insertRow, rowFits, rowDup, addRow, hid,
        events_dup_false db.events i "TOKEN_REVOKE" (w.clock (tick + 2)) hc2]
    have e1 : findToken w 99
        { db := {db with
            users := db.users ++ [⟨i, w.clock tick⟩],
            events := db.events ++ [⟨i, "USER_CREATE", w.clock (tick + 1)⟩]},
          txn :=
            {users := db.users ++ [⟨i, w.clock tick⟩],
             events := db.events ++ [⟨i, "USER_CREATE", w.clock (tick + 1)⟩],
             api_tokens := db.api_tokens,
             auth_tokens := db.auth_tokens},
          pending := [PRow.event ⟨i, "TOKEN_REVOKE", w.clock (tick + 2)⟩],
          tick := tick + 3, tkIdx := tkIdx, warnings := warnings }
        = (none, none,
          { db := {db with
              users := db.users ++ [⟨i, w.clock tick⟩],
              events := db.events ++ [⟨i, "USER_CREATE", w.clock (tick + 1)⟩]},
            txn :=
              {users := db.users ++ [⟨i, w.clock tick⟩],
               events := db.events ++ [⟨i, "USER_CREATE", w.clock (tick + 1)⟩,
                 ⟨i, "TOKEN_REVOKE", w.clock (tick + 2)⟩],
               api_tokens := db.api_tokens,
               auth_tokens := db.auth_tokens},
            pending := [], tick := tick + 3, tkIdx := tkIdx + 99,
            warnings := warnings }) :=
      findToken_exhaust_flush w 98 _ _ hfl2 (by
        intro j hj
        simpa using hcol j hj)
    simp +decide [create_user, regenerate_token, andThen, register_event, Schema.now,
      Schema.commit, flushDB, insertRow, rowFits, rowDup, addRow, hid,
      h1, create_token, e1, hnoapi,
      user_dup_false db.users i habsent,
      events_dup_false db.events i "USER_CREATE" (w.clock (tick + 1)) hc1]

/-- C10 witness: account "x" already holds token "t", so generating a token
for the new account "42" exhausts all 99 attempts. -/
theorem create_user_commits_before_token_generation_witness :
    (create_user wColl "42" true true
      {Schema.init ⟨[⟨"x", 0⟩], [], [⟨"x", "t", 0⟩], []⟩ with tick := 1}).1
        = some Err.TokenExhausted ∧
    (⟨"42", wColl.clock 1⟩ : User) ∈ (create_user wColl "42" true true
      {Schema.init ⟨[⟨"x", 0⟩], [], [⟨"x", "t", 0⟩], []⟩ with tick := 1}).2.db.users ∧
    (⟨"42", "USER_CREATE", wColl.clock 2⟩ : Event) ∈ (create_user wColl "42" true true
      {Schema.init ⟨[⟨"x", 0⟩], [], [⟨"x", "t", 0⟩], []⟩ with tick := 1}).2.db.events ∧
    (create_user wColl "42" true true
      {Schema.init ⟨[⟨"x", 0⟩], [], [⟨"x", "t", 0⟩], []⟩ with tick := 1}).2.db.api_tokens.filter
      (fun r => r.discord_id == "42") = [] :=
  create_user_commits_before_token_generation wColl "42"
    {Schema.init ⟨[⟨"x", 0⟩], [], [⟨"x", "t", 0⟩], []⟩ with tick := 1} rfl rfl
    (by decide) (by decide) (by decide) (by decide) (by decide) (by decide)

end IdentityDB
